import Mathlib

set_option maxRecDepth 40000

/-!
Verification of the pyGSTi-Rice repository content: tutorial/example notebooks
that drive the external pyGSTi library, an HTML report-template fragment with
percent-style placeholders, and a summary-notebook text template.

The notebooks are straight-line Python scripts.  They are embedded shallowly:
each notebook becomes a Lean function from an abstract library interface
(`PygstiLib`, whose fields are the opaque pyGSTi entry points the notebooks
call) to a record of the values the script computes, together with explicit
event traces for ordering/effect claims.  Library routines whose behaviour the
claims depend on (gate-string replacement rules, dataset key processing) are
not present in the supplied sources and are modelled from the spec; they are
marked as such in their doc comments.
-/

/-- A gate label, e.g. "Gx", "Gi", "Gi2". -/
abbrev GateLabel := String

/-- A gate string: a finite sequence of gate labels. -/
abbrev GateString := List GateLabel

/-- Modelled from the spec: a pyGSTi `DataSet` is keyed by gate strings
(outcome counts are irrelevant to every claim and are abstracted away).
The implementation of `DataSet` is not among the supplied source files. -/
structure DataSet where
  gateStrings : List GateString
deriving DecidableEq

/-- Modelled from the spec: `DataSet.process_gate_strings` applies the given
function to every gate-string key of the data set (the context-dependence
notebook uses it to revert all `Gi2` labels back to `Gi`). -/
def DataSet.process_gate_strings (ds : DataSet) (f : GateString → GateString) : DataSet :=
  ⟨ds.gateStrings.map f⟩

/-- Fuel-indexed worker for `replaceAll`.  The fuel only makes the recursion
structural; `replaceAll` always supplies enough fuel (the list length). -/
def replaceAllGo [DecidableEq α] (pat repl : List α) : ℕ → List α → List α
  | _, [] => []
  | 0, s => s
  | fuel + 1, a :: t =>
    if pat ≠ [] ∧ pat.isPrefixOf (a :: t) then
      repl ++ replaceAllGo pat repl fuel (t.drop (pat.length - 1))
    else
      a :: replaceAllGo pat repl fuel t

/-- Modelled from the spec: left-to-right, non-overlapping replacement of the
pattern `pat` by `repl` in a list.  This is the effect of a single pyGSTi
gate-string manipulation rule `(pat, repl)`; the library implementation
(`pygsti.construction.manipulate_gatestring`) is not among the supplied
source files. -/
def replaceAll [DecidableEq α] (pat repl : List α) (s : List α) : List α :=
  replaceAllGo pat repl s.length s

/-- Modelled from the spec: `pygsti.construction.manipulate_gatestring`
applies each replacement rule in turn to a gate string. -/
def manipulate_gatestring (s : GateString) (rules : List (GateString × GateString)) : GateString :=
  rules.foldl (fun acc pr => replaceAll pr.1 pr.2 acc) s

/-- Modelled from the spec: `pygsti.construction.manipulate_gatestring_list`
maps `manipulate_gatestring` over a list of gate strings. -/
def manipulate_gatestring_list (l : List GateString) (rules : List (GateString × GateString)) :
    List GateString :=
  l.map (fun s => manipulate_gatestring s rules)

/-- The forward context-dependence rule `(Gx, Gi) → (Gx, Gi2)`. -/
def contextDepRules : List (GateString × GateString) :=
  [(["Gx", "Gi"], ["Gx", "Gi2"])]

/-- The reversion rule `(Gi2,) → (Gi,)`. -/
def contextDepRevRules : List (GateString × GateString) :=
  [(["Gi2"], ["Gi"])]



/-- A chunk of the gauge-invariant error-metrics HTML template: either literal
text or a `%(key)s` placeholder.  Long literal runs are stored as several
consecutive `lit` chunks. -/
inductive TChunk
  | lit (s : String)
  | hole (k : String)
deriving DecidableEq

/-- The source text of a chunk: a placeholder `hole k` reads `%(k)s`. -/
def TChunk.src : TChunk → List Char
  | .lit s => s.data
  | .hole k => '%' :: '(' :: (k.data ++ [')', 's'])

/-- The rendered text of a chunk under a mapping `m`: literal text is kept,
a placeholder is replaced by the mapping's value for its key. -/
def TChunk.rendered (m : String → String) : TChunk → List Char
  | .lit s => s.data
  | .hole k => (m k).data

/-- Well-formedness of a chunk: literal text contains no percent sign and a
placeholder key contains no closing parenthesis. -/
def TChunk.okb : TChunk → Bool
  | .lit s => s.data.all (fun c => c ≠ '%')
  | .hole k => k.data.all (fun c => c ≠ ')')

/-- The full source text of a chunked template. -/
def templateChars (t : List TChunk) : List Char :=
  (t.map TChunk.src).flatten

/-- The spec-described rendering: each `%(key)s` becomes the mapping's value
for `key`, every other character is kept unchanged. -/
def substChars (m : String → String) (t : List TChunk) : List Char :=
  (t.map (TChunk.rendered m)).flatten

/-- The placeholder keys of a chunked template, in order of occurrence. -/
def templateKeys (t : List TChunk) : List String :=
  t.filterMap (fun c => match c with | .hole k => some k | .lit _ => none)

/-- Scanner state of the percent-formatting machine: outside any conversion,
just after `%`, inside the parenthesised key, or just after the key's `)`. -/
inductive PSt
  | out
  | pct
  | key (acc : List Char)
  | close (acc : List Char)

/-- One scanner step of CPython percent-formatting restricted to the
`%(name)s` conversions the template uses: returns the next state and the
characters emitted by this step. -/
def pctStep (m : String → String) : PSt → Char → PSt × List Char
  | .out, c => if c = '%' then (.pct, []) else (.out, [c])
  | .pct, c => if c = '(' then (.key [], []) else (.out, ['%', c])
  | .key acc, c => if c = ')' then (.close acc, []) else (.key (acc ++ [c]), [])
  | .close acc, c =>
    if c = 's' then (.out, (m (String.mk acc)).data)
    else (.out, '%' :: '(' :: (acc ++ [')', c]))

/-- Characters emitted for a scanner state left pending at end of input. -/
def pctFlush : PSt → List Char
  | .out => []
  | .pct => ['%']
  | .key acc => '%' :: '(' :: acc
  | .close acc => '%' :: '(' :: (acc ++ [')'])

/-- Run the percent-formatting scanner over the input. -/
def pctRun (m : String → String) : PSt → List Char → List Char
  | st, [] => pctFlush st
  | st, c :: cs => (pctStep m st c).2 ++ pctRun m (pctStep m st c).1 cs

/-- Python `template % mapping` (the rendering operation the report template
is designed for), modelled for the `%(name)s` conversions it contains. -/
def pctSubst (m : String → String) (s : List Char) : List Char :=
  pctRun m .out s

/-- The gauge-invariant error-metrics template (`part_000`, lines 1-35),
decomposed into literal text and its seven `%(key)s` placeholders.  The
literal text is verbatim; long runs are split across consecutive `lit`
chunks only to keep each string short. -/
def gaugeInvTemplate : List TChunk := [
  .lit "\t<h1>Gauge Invariant Error Metrics</h1>\n\t<p>GST can estimate gates <em>up to an overall gauge</em>.  PyGSTi tries to find a good gauge in which to report process matrices and gauge-variant metrics like fidelity -- but sometimes this goes wrong.  The most reliable error metrics and gate properties are <em>gauge-invariant</em> ones, and these are lis",
  .lit "ted on this tab.</p>\n\n\t<figure id=\"bestGatesetVsTargetTable\" class=\x27tbl\x27>\n\t  <figcaption><span class=\"captiontitle\">RB error metrics</span> <span class=\"captiondetail\">This table shows estimates for the error rate that would be obtained using the Randomized Benchmarking (RB) protocol.  RB is performed in several different ways.  The <q>Clifford</q>",
  .lit " RB number corresponds to the most standard form of RB, where random Clifford gate sequences are performed.  This number is dependent on how the Clifford operations are <q>compiled</q> from the primitive gates, and so if you didn\x27t specify a Clifford compilation and pygsti couldn\x27t deduce one, this quantity will be absent.  The <q>primitive</q> RB ",
  .lit "number corresponds to performing RB on random sequences of the primitive gates, rather than the Cliffords.  This number does not require any compilation table and is always be computed by pyGSTi.  Two caveats regarding these RB numbers: 1) the primitive RB number is not meaningful for arbitrary gate sets; if the gate set generates the Clifford grou",
  .lit "p then it is definitely meaningful. 2) these predicted RB numbers rely on a perturbative technique, and if the estimated gates are far from their ideal counterparts the predicted numbers may be very inaccurate.</span></figcaption>\n\t  ",
  .hole "bestGatesetVsTargetTable",
  .lit "\n\t</figure>\n\t\n\t<figure id=\"bestGatesetSpamParametersTable\" class=\x27tbl\x27>\n\t  <figcaption><span class=\"captiontitle\">SPAM probabilities</span> <span class=\"captiondetail\"> This table shows estimated SPAM probabilities for each measurement outcome.  These are computed as <span class=\"math\">\\mathrm\x7bTr\x7d[\\rho E_i]</span>, where <span class=\"math\">\\rho</sp",
  .lit "an> is an estimated initial state (often labelled <span class=\"math\">\\rho_0</span>), and <span class=\"math\">\\\x7bE_i\\\x7d</span> is the estimated <em>n</em>-outcome POVM.  The symbol <span class=\"math\">E_C</span> denotes the <em>n</em>th POVM effect, which is not allowed to vary freely but is defined by subtracting the sum of the other effects (which <em",
  .lit ">are</em> freely varied) from the identity.</span></figcaption>\n\t  ",
  .hole "bestGatesetSpamParametersTable",
  .lit "\n\t</figure>\n\n\n\t<figure id=\"gramBarPlot\" class=\x27tbl\x27>\n\t  <figcaption><span class=\"captiontitle\">Gram matrix spectrum.</span> <span class=\"captiondetail\">The GST Gram matrix is not a standard error metric, but it is gauge-invariant and critical to the GST process.  It provides some insight into generalized SPAM.  It is the (estimated) matrix of inner",
  .lit " products between all the input states prepared by the various preparation fiducials, and all the measured effects prepared by the various measurement fiducials.  LGST involves inverting the Gram matrix, so it needs to be full rank.  In the plot, each pair of bars shows the <em>n</em>th  eigenvalues of the estimated Gram matrix and the Gram matrix ",
  .lit "predicted by the ideal targets (respectively).  Larger eigenvalues indicate better sensitivity, and the number of non-zero values indicates the dimension of the state (density matrix) space being probed (e.g., for a single qubit, the Gram matrix should have 4 O(1) eigenvalues).</span> </figcaption>\n\t  ",
  .hole "gramBarPlot",
  .lit "\n\t</figure>\n\n\t<figure id=\"bestGatesVsTargetTable_gi\" class=\x27tbl\x27>\n\t  <figcaption><span class=\"captiontitle\">Spectral error metrics between estimated gates and ideal targets</span> <span class=\"captiondetail\">This table presents a variety of gauge-invariant quantities that quantify the distance or discrepancy between (1) an estimated gate, and (2) t",
  .lit "he ideal corresponding target operation.  Each of these error metrics depends <em>only</em> on a specific gate\x27s spectrum (eigenvalues), which are gauge-invariant and non-relational (i.e., they pertain to a single gate).  Hovering over a column header will pop up a mathematical description of the corresponding metric.</span></figcaption>\n\t  ",
  .hole "bestGatesVsTargetTable_gi",
  .lit "\n\t</figure>\n\n\t<figure id=\"singleMetricTable_gi\" class=\x27tbl\x27>\n\t  <figcaption><span class=\"captiontitle\">Single metric comparison.</span> <span class=\"captiondetail\">TODO: caption</span> </figcaption>\n\t  ",
  .hole "metricSwitchboard_gi",
  .lit "\n\t  ",
  .hole "singleMetricTable_gi",
  .lit "\n\t</figure>\n\n\n\t<figure id=\"bestGatesetEigenvalueTable\" class=\x27tbl\x27>\n\t  <figcaption><span class=\"captiontitle\">Eigenvalues of estimated gates.</span> <span class=\"captiondetail\"> This table lists the spectrum of each estimated gate.  It also breaks out the real and imaginary parts of each eigenvalue, <em>and</em> it compares the estimated eigenvalue",
  .lit "s to those of the ideal target gates in several useful ways.  To do these comparisons, each estimated eigenvalue needs to be matched up with a target eigenvalue, and pyGSTi does this independently for each metric by computing a minimum-weight matching based on that metric.  Hovering over a column header will pop up a mathematical description of the",
  .lit " corresponding metric.</span></figcaption>\n\t  ",
  .hole "bestGatesetEvalTable",
  .lit "\n\t</figure>\n" ]

/-- The seven placeholder keys of the gauge-invariant template, in order. -/
def gaugeInvKeys : List String :=
  ["bestGatesetVsTargetTable", "bestGatesetSpamParametersTable", "gramBarPlot",
   "bestGatesVsTargetTable_gi", "metricSwitchboard_gi", "singleMetricTable_gi",
   "bestGatesetEvalTable"]

/-- Kind of a summary-template block. -/
inductive BKind
  | markdown
  | code
deriving DecidableEq

/-- A parsed block of the summary template: its kind and the body lines that
follow its marker line. -/
structure TBlock where
  kind : BKind
  body : List String
deriving DecidableEq

/-- The marker line that opens a block of the given kind. -/
def markerOf : BKind → String
  | .markdown => "@@markdown"
  | .code => "@@code"

/-- Worker for `parseBlocks`: a `@@markdown` or `@@code` line closes the
current block and opens a new one of that kind; any other line is appended to
the current block (a line before the first marker would be dropped; the
summary template has none). -/
def parseBlocksGo (acc : List TBlock) (cur : Option TBlock) : List String → List TBlock
  | [] => acc ++ cur.toList
  | l :: rest =>
    if l = "@@markdown" then parseBlocksGo (acc ++ cur.toList) (some ⟨.markdown, []⟩) rest
    else if l = "@@code" then parseBlocksGo (acc ++ cur.toList) (some ⟨.code, []⟩) rest
    else
      match cur with
      | some b => parseBlocksGo acc (some ⟨b.kind, b.body ++ [l]⟩) rest
      | none => parseBlocksGo acc none rest

/-- Parse a list of lines into marker-delimited blocks. -/
def parseBlocks (ls : List String) : List TBlock :=
  parseBlocksGo [] none ls

/-- The 21 lines of
`src/packages/pygsti/report/templates/report_notebook/summary.txt`, verbatim
(apostrophes written as their hex escape). -/
def summaryLines : List String := [
  "@@markdown",
  "# Summary",
  "Several of the most important figures up front.",
  "### Model Violation ",
  "The aggregate log-likelihood as a function of GST iterations\x27\x27\x27)",
  "@@code",
  "ws.FitComparisonBarPlot(Ls, gssPerIter, gsPerIter, ",
  "                        effective_ds, objective, \x27L\x27)",
  "@@markdown",
  "### Per-sequence Model Violation",
  "And a histogram of the per-sequence goodness of fit values.\x27\x27\x27)",
  "@@code",
  "k = -1 #iteration index",
  "colorHistogramPlot = ws.ColorBoxPlot(",
  "    objective, gssPerIter[k], effective_ds, gsPerIter[k],",
  "    linlg_pcntle=0.95, minProbClipForWeighting=mpc, typ=\x27histogram\x27)",
  "@@markdown",
  "### Comparison of GST estimated gates to target gates: ",
  "This table presents, for each of the gates, three different measures of distance or discrepancy from the GST estimate to the ideal target operation.  See text for more detail.\x27\x27\x27)",
  "@@code",
  "ws.GatesVsTargetTable(gs, gs_target, cri)" ]

/-- Opaque stand-in for a single pyGSTi gate (a process matrix); nothing
about it is observable in the supplied sources. -/
structure Gate where
  tag : ℕ
deriving DecidableEq

/-- Opaque stand-in for a pyGSTi basis object (`gateset.basis`). -/
structure GateBasis where
  tag : ℕ
deriving DecidableEq

/-- Opaque stand-in for a pyGSTi `GateSet`.  The only observation the
notebooks make of a gate set's contents is `gs.gates.keys()`, modelled by the
`gates` field; everything else is carried by the opaque `tag`. -/
structure GS where
  gates : List GateLabel
  tag : ℕ
deriving DecidableEq

/-- Opaque stand-in for an MPI communicator object (`MPI.COMM_WORLD`).  A
communicator denotes the same object on every process; the calling process's
rank is a separate parameter of each script embedding, and `comm.Get_rank()`
returns it. -/
structure Comm where
  tag : ℕ
deriving DecidableEq

/-- Opaque stand-in for a confidence-region factory. -/
structure CRF where
  tag : ℕ
deriving DecidableEq

/-- Numeric literal arguments appearing in the notebooks: rationals (Python
floats in the sources are exactly representable or claim-irrelevant) and the
angle pi/2 used by the qutrit construction. -/
inductive RVal
  | rat (q : ℚ)
  | piDiv2
deriving DecidableEq

/-- A value stored in an estimate's `parameters` dictionary. -/
inductive PVal
  | num (q : ℚ)
  | str (s : String)
deriving DecidableEq

/-- A pyGSTi `Estimate`: its `parameters` dictionary, its gauge-optimized
gate sets, and its confidence-region factories (keyed by gauge-optimization
label and gate-set label). -/
structure Estimate where
  parameters : String → Option PVal
  gatesets : String → Option GS
  crfactories : String × String → Option CRF

/-- A pyGSTi `Results` object: named estimates plus the single input data
set. -/
structure Results where
  estimates : String → Option Estimate
  dataset : DataSet

/-- The `gaugeOptParams` argument of `do_long_sequence_gst` as used by the
parallel-GST script: per-item gauge-optimization weights. -/
structure GOParams where
  itemWeights : List (String × ℚ)

/-- The `advancedOptions` dictionary of `do_long_sequence_gst` as used by the
context-dependence notebook. -/
structure AdvOptions where
  gateLabelAliases : Option (List (GateLabel × GateString))
  stringManipRules : Option (List (GateString × GateString))
  startingPoint : Option GS

/-- The arguments of a `do_long_sequence_gst` call. -/
structure GstArgs where
  ds : DataSet
  targetGateset : GS
  prepFids : List GateString
  measFids : List GateString
  germs : List GateString
  maxLengths : List ℕ
  verbosity : Option ℕ
  advancedOptions : Option AdvOptions
  memLimit : Option RVal
  gaugeOptParams : Option GOParams
  comm : Option Comm

/-- The arguments of a `do_stdpractice_gst` call. -/
structure StdPracArgs where
  ds : DataSet
  targetGateset : GS
  prepFids : List GateString
  measFids : List GateString
  germs : List GateString
  maxLengths : List ℕ
  verbosity : Option ℕ
  comm : Option Comm
  memLimit : Option RVal
  modes : Option String

/-- The keyword arguments of `germselection.build_up_breadth` other than the
gate set, the candidate germ list and the communicator. -/
structure BupParams where
  randomizationStrength : ℚ
  numCopies : ℕ
  seed : ℕ
  gatePenalty : ℚ
  scoreFunc : String
  tol : ℚ
  threshold : ℚ
  pretest : Bool
  force : List GateString
  verbosity : ℕ
  memLimit : ℚ
deriving DecidableEq

/-- The external pyGSTi library interface.  Every field is an uninterpreted
operation (or constant): the supplied sources only call these entry points
and never define them, so the embedding is parametric in an arbitrary
interpretation of this structure. -/
structure PygstiLib where
  std1Q_gs_target : GS
  std1Q_fiducials : List GateString
  std1Q_prepStrs : List GateString
  std1Q_effectStrs : List GateString
  std1Q_germs : List GateString
  std2Q_gs_target : GS
  stdQT_gs_target : GS
  stdQT_prepStrs : List GateString
  stdQT_effectStrs : List GateString
  stdQT_germs_lite : List GateString
  make_qutrit_gateset : RVal → RVal → RVal → RVal → RVal → String → GS
  depolarize : GS → RVal → RVal → GS
  gsGet : GS → GateLabel → Gate
  gsSet : GS → GateLabel → Gate → GS
  gsCopy : GS → GS
  gateCopy : Gate → Gate
  gateDepolarize : Gate → RVal → Gate
  gateRotate : Gate → RVal × RVal × RVal → GateBasis → Gate
  basisOf : GS → GateBasis
  set_all_parameterizations : GS → String → GS
  make_lsgst_experiment_list :
    GS ⊕ List GateLabel → List GateString → List GateString → List GateString →
      List ℕ → List GateString
  generate_fake_data : GS → List GateString → ℕ → String → ℕ → DataSet
  do_long_sequence_gst : GstArgs → Results
  do_stdpractice_gst : StdPracArgs → Results
  gaugeopt_to_target : GS → GS → GS
  frobeniusdist : GS → GS → ℚ
  add_confidence_region_factory : Estimate → String → String → CRF
  compute_hessian : CRF → Option Comm → CRF
  project_hessian : CRF → String → CRF
  list_all_gatestrings_without_powers_and_cycles : List GateLabel → ℕ → List GateString
  list_random_gatestrings_onelen : List GateLabel → ℕ → ℕ → ℕ → List GateString
  build_up_breadth : GS → List GateString → BupParams → Option Comm → List GateString
  create_standard_report : Results → String → String → ℕ

/-- Modelled from the spec: `pygsti.construction.gatestring_list` converts a
list of label tuples into `GateString` objects; on this representation it is
the identity. -/
def gatestring_list (l : List GateString) : List GateString := l

/-- Worker for `remove_duplicates`, carrying the set of elements seen so
far. -/
def remove_duplicates_go [DecidableEq α] (seen : List α) : List α → List α
  | [] => []
  | a :: t =>
    if a ∈ seen then remove_duplicates_go seen t
    else a :: remove_duplicates_go (a :: seen) t

/-- Modelled from the spec: `pygsti.tools.remove_duplicates` keeps the first
occurrence of each element, preserving order. -/
def remove_duplicates [DecidableEq α] (l : List α) : List α :=
  remove_duplicates_go [] l

/-- The content of a file written or read by the notebooks. -/
inductive FileVal
  | datasetFile (ds : DataSet)
  | emptyDatasetFile (strs : List GateString) (columns : String)
  | pickleResults (r : Results)
  | pickleGerms (g : List GateString)
  | textFile (s : String)
  | reportDir (tag : ℕ)

/-- A file store: what the scripts can read from disk. -/
abbrev FS := String → Option FileVal

/-- An event in a notebook's or script's execution trace.  Only
order-relevant actions are recorded, with decidable payloads. -/
inductive Ev
  | loadPickle (path : String)
  | dumpPickle (path : String)
  | generateFakeData (nSamples : ℕ) (sampleError : String) (seed : ℕ)
  | writeDatasetFile (path : String)
  | writeEmptyDatasetFile (path : String)
  | loadDatasetFile (path : String)
  | writeTextFile (path : String)
  | runMpiexec (nProcs : ℕ) (scriptPath : String)
  | setParam (estimateKey paramKey : String)
  | addConfRegionFactory (goLabel ptLabel : String)
  | computeHessianEv
  | projectHessianEv (projType : String)
  | callLib (name : String)
  | printOut
deriving DecidableEq

/-- A use the scripts make of the MPI communicator. -/
inductive CommUse
  | getRank
  | passToLib (fn : String)
deriving DecidableEq

/-- The gauge-optimized gate set of a `Results` object's default estimate
that the context-dependence notebook reads
(`results.estimates['default'].gatesets['final iteration estimate']`). -/
def Results.finalEstimate (r : Results) : Option GS :=
  (r.estimates "default").bind (fun e => e.gatesets "final iteration estimate")

/-- Output record of the Getting Started tutorial's GST cells. -/
structure GettingStartedOut where
  gs_target : GS
  prep_fiducials : List GateString
  meas_fiducials : List GateString
  germs : List GateString
  maxLengths : List ℕ
  gs_datagen : GS
  listOfExperiments : List GateString
  ds : DataSet
  stdArgs : StdPracArgs
  results : Results
  writes : List (String × FileVal)

/-- Embedding of the Getting Started tutorial (`00 Getting Started.ipynb`):
build the standard 1-qubit design, simulate a data set from a depolarized
target, run `do_stdpractice_gst`, and create a report. -/
def gettingStartedRun (lib : PygstiLib) : GettingStartedOut :=
  let gs_target := lib.std1Q_gs_target
  let prep_fiducials := lib.std1Q_prepStrs
  let meas_fiducials := lib.std1Q_effectStrs
  let germs := lib.std1Q_germs
  let maxLengths := [1, 2, 4, 8, 16, 32]
  let gs_datagen := lib.depolarize gs_target (.rat (1/10)) (.rat (1/1000))
  let listOfExperiments :=
    lib.make_lsgst_experiment_list (.inl gs_target) prep_fiducials meas_fiducials germs maxLengths
  let ds := lib.generate_fake_data gs_datagen listOfExperiments 1000 "binomial" 1234
  let stdArgs : StdPracArgs :=
    { ds := ds, targetGateset := gs_target, prepFids := prep_fiducials,
      measFids := meas_fiducials, germs := germs, maxLengths := maxLengths,
      verbosity := none, comm := none, memLimit := none, modes := none }
  let results := lib.do_stdpractice_gst stdArgs
  { gs_target := gs_target, prep_fiducials := prep_fiducials,
    meas_fiducials := meas_fiducials, germs := germs, maxLengths := maxLengths,
    gs_datagen := gs_datagen, listOfExperiments := listOfExperiments, ds := ds,
    stdArgs := stdArgs, results := results,
    writes :=
      [("tutorial_files/GettingStartedDataTemplate.txt",
        .emptyDatasetFile listOfExperiments "## Columns = 1 count, count total"),
       ("tutorial_files/gettingStartedReport",
        .reportDir (lib.create_standard_report results
          "tutorial_files/gettingStartedReport" "Tutorial0 Example Report"))] }

/-- Output record of the context-dependence example's cells. -/
structure ContextDepOut where
  gs_target : GS
  fiducials : List GateString
  germs : List GateString
  maxLengths : List ℕ
  gs_datagen : GS
  listOfExperiments_raw : List GateString
  listOfExperiments : List GateString
  ds0 : DataSet
  ds : DataSet
  gs_targetTP : GS
  gstArgsA : GstArgs
  results : Results
  gs_targetB : GS
  gstArgsB : GstArgs
  resultsB : Results
  gs_start : GS
  gstArgsC : GstArgs
  resultsC : Results
  gsA : Option GS
  gsA2 : Option GS
  gsB : Option GS
  gsC : Option GS

/-- Embedding of the context-dependence example (`part_001`).  The Python
variable `listOfExperiments` is rebound; its values before and after the
`manipulate_gatestring_list` call are kept as `listOfExperiments_raw` and
`listOfExperiments`.  `gs_target` is mutated in place by
`set_all_parameterizations("TP")`; the mutated value is `gs_targetTP`. -/
def contextDepRun (lib : PygstiLib) : ContextDepOut :=
  let gs_target := lib.std1Q_gs_target
  let fiducials := lib.std1Q_fiducials
  let germs := lib.std1Q_germs
  let maxLengths := [1, 2, 4, 8, 16, 32]
  let g0 := lib.depolarize gs_target (.rat (1/10)) (.rat (1/1000))
  let g1 := lib.gsSet g0 "Gi2" (lib.gateCopy (lib.gsGet g0 "Gi"))
  let g2 := lib.gsSet g1 "Gi2" (lib.gateDepolarize (lib.gsGet g1 "Gi2") (.rat (1/10)))
  let gs_datagen := lib.gsSet g2 "Gi2"
    (lib.gateRotate (lib.gsGet g2 "Gi2") (.rat 0, .rat 0, .rat (1/10)) (lib.basisOf g2))
  let listOfExperiments_raw :=
    lib.make_lsgst_experiment_list (.inl gs_target) fiducials fiducials germs maxLengths
  let listOfExperiments := manipulate_gatestring_list listOfExperiments_raw contextDepRules
  let ds0 := lib.generate_fake_data gs_datagen listOfExperiments 10000 "binomial" 1234
  let ds := ds0.process_gate_strings (fun g => manipulate_gatestring g contextDepRevRules)
  let gs_targetTP := lib.set_all_parameterizations gs_target "TP"
  let gstArgsA : GstArgs :=
    { ds := ds, targetGateset := gs_targetTP, prepFids := fiducials, measFids := fiducials,
      germs := germs, maxLengths := maxLengths, verbosity := some 2,
      advancedOptions := none, memLimit := none, gaugeOptParams := none, comm := none }
  let results := lib.do_long_sequence_gst gstArgsA
  let gs_targetB :=
    lib.gsSet (lib.gsCopy gs_targetTP) "Gi2" (lib.gateCopy (lib.gsGet gs_targetTP "Gi"))
  let gstArgsB : GstArgs :=
    { ds := ds, targetGateset := gs_targetB, prepFids := fiducials, measFids := fiducials,
      germs := germs, maxLengths := maxLengths, verbosity := some 2,
      advancedOptions := some
        { gateLabelAliases := some [("Gi2", ["Gi"])],
          stringManipRules := some contextDepRules, startingPoint := none },
      memLimit := none, gaugeOptParams := none, comm := none }
  let resultsB := lib.do_long_sequence_gst gstArgsB
  let gs_start := lib.depolarize gs_targetB (.rat (1/100)) (.rat (1/100))
  let gstArgsC : GstArgs :=
    { ds := ds, targetGateset := gs_targetB, prepFids := fiducials, measFids := fiducials,
      germs := germs, maxLengths := maxLengths, verbosity := some 2,
      advancedOptions := some
        { gateLabelAliases := some [("Gi2", ["Gi"])],
          stringManipRules := some contextDepRules, startingPoint := some gs_start },
      memLimit := none, gaugeOptParams := none, comm := none }
  let resultsC := lib.do_long_sequence_gst gstArgsC
  let gsA := results.finalEstimate.map (fun g => lib.gaugeopt_to_target g gs_datagen)
  let gsA2 := gsA.map (fun g => lib.gsSet g "Gi2" (lib.gsGet g "Gi"))
  let gsB := resultsB.finalEstimate.map (fun g => lib.gaugeopt_to_target g gs_datagen)
  let gsC := resultsC.finalEstimate.map (fun g => lib.gaugeopt_to_target g gs_datagen)
  { gs_target := gs_target, fiducials := fiducials, germs := germs, maxLengths := maxLengths,
    gs_datagen := gs_datagen, listOfExperiments_raw := listOfExperiments_raw,
    listOfExperiments := listOfExperiments, ds0 := ds0, ds := ds, gs_targetTP := gs_targetTP,
    gstArgsA := gstArgsA, results := results, gs_targetB := gs_targetB, gstArgsB := gstArgsB,
    resultsB := resultsB, gs_start := gs_start, gstArgsC := gstArgsC, resultsC := resultsC,
    gsA := gsA, gsA2 := gsA2, gsB := gsB, gsC := gsC }

/-- Path of the data set the parallel-GST example writes and its script
loads. -/
def mpiDatasetPath : String := "example_files/mpi_example_dataset.txt"

/-- Path of the standalone MPI script the parallel-GST example writes. -/
def mpiScriptPath : String := "example_files/mpi_example_script.py"

/-- Path of the pickled results the MPI script's rank 0 writes. -/
def mpiResultsPath : String := "example_files/mpi_example_results.pkl"

/-- The verbatim text of the standalone MPI script (the `mpiScript` string
literal of the parallel-GST notebook). -/
def mpiScriptText : String :=
  "\n" ++
  "import time\n" ++
  "import pygsti\n" ++
  "from pygsti.construction import std1Q_XYI\n" ++
  "\n" ++
  "#get MPI comm\n" ++
  "from mpi4py import MPI\n" ++
  "comm = MPI.COMM_WORLD\n" ++
  "\n" ++
  "print(\"Rank %d started\" % comm.Get_rank())\n" ++
  "\n" ++
  "#define target gateset, fiducials, and germs as before\n" ++
  "gs_target = std1Q_XYI.gs_target\n" ++
  "fiducials = std1Q_XYI.fiducials\n" ++
  "germs = std1Q_XYI.germs\n" ++
  "maxLengths = [1,2,4,8,16,32]\n" ++
  "\n" ++
  "#tell gauge optimization to weight the gate matrix\n" ++
  "# elements 100x more heavily than the SPAM vector elements, and\n" ++
  "# to specifically weight the Gx gate twice as heavily as the other\n" ++
  "# gates.\n" ++
  "goParams = \x7b\x27itemWeights\x27:\x7b\x27spam\x27: 0.01, \x27gates\x27: 1.0, \x27Gx\x27: 2.0\x7d \x7d\n" ++
  "\n" ++
  "#Specify a per-core memory limit (useful for larger GST calculations)\n" ++
  "memLim = 2.1*(1024)**3  # 2.1 GB\n" ++
  "\n" ++
  "#Perform TP-constrained GST\n" ++
  "gs_target.set_all_parameterizations(\"TP\")\n" ++
  "    \n" ++
  "#load the dataset\n" ++
  "ds = pygsti.io.load_dataset(\"example_files/mpi_example_dataset.txt\")\n" ++
  "\n" ++
  "start = time.time()\n" ++
  "results = pygsti.do_long_sequence_gst(ds, gs_target, fiducials, fiducials,\n" ++
  "                                      germs, maxLengths,memLimit=memLim,\n" ++
  "                                      gaugeOptParams=goParams, comm=comm,\n" ++
  "                                      verbosity=2)\n" ++
  "end = time.time()\n" ++
  "print(\"Rank %d finished in %.1fs\" % (comm.Get_rank(), end-start))\n" ++
  "if comm.Get_rank() == 0:\n" ++
  "    import pickle\n" ++
  "    pickle.dump(results, open(\"example_files/mpi_example_results.pkl\",\"wb\"))\n"

/-- The execution trace of the parallel-GST notebook's cells, in order. -/
def mpiNotebookEvents : List Ev :=
  [.generateFakeData 1000 "binomial" 1234, .writeDatasetFile mpiDatasetPath,
   .writeTextFile mpiScriptPath, .runMpiexec 3 mpiScriptPath,
   .loadPickle mpiResultsPath, .callLib "create_standard_report"]

/-- Whether an event is a synthetic-data generation. -/
def isGenEv : Ev → Bool
  | .generateFakeData _ _ _ => true
  | _ => false

/-- The execution trace of one process of the MPI script: only rank 0 ends
with the pickle dump. -/
def mpiScriptEvents (myRank : ℕ) : List Ev :=
  [.printOut, .loadDatasetFile mpiDatasetPath, .callLib "do_long_sequence_gst", .printOut] ++
    (if myRank = 0 then [.dumpPickle mpiResultsPath] else [])

/-- Output record of the parallel-GST notebook (`part_002`), excluding the
behaviour of the standalone script it writes (embedded separately as
`mpiScriptRun`). -/
structure MpiNotebookOut where
  gs_target : GS
  fiducials : List GateString
  germs : List GateString
  maxLengths : List ℕ
  gs_datagen : GS
  listOfExperiments : List GateString
  ds : DataSet
  resultsLoaded : Option Results
  writes : List (String × FileVal)
  events : List Ev

/-- Embedding of the parallel-GST notebook: generate the data set serially
(seed 1234), write it and the MPI script to disk, run `mpiexec -n 3`, then
load the pickled results and create a report.  `fs` supplies the pickle the
MPI run leaves behind. -/
def mpiNotebookRun (lib : PygstiLib) (fs : FS) : MpiNotebookOut :=
  let gs_target := lib.std1Q_gs_target
  let fiducials := lib.std1Q_fiducials
  let germs := lib.std1Q_germs
  let maxLengths := [1, 2, 4, 8, 16, 32]
  let gs_datagen := lib.depolarize gs_target (.rat (1/10)) (.rat (1/1000))
  let listOfExperiments :=
    lib.make_lsgst_experiment_list (.inr gs_target.gates) fiducials fiducials germs maxLengths
  let ds := lib.generate_fake_data gs_datagen listOfExperiments 1000 "binomial" 1234
  let resultsLoaded : Option Results :=
    match fs mpiResultsPath with
    | some (.pickleResults r) => some r
    | _ => none
  { gs_target := gs_target, fiducials := fiducials, germs := germs, maxLengths := maxLengths,
    gs_datagen := gs_datagen, listOfExperiments := listOfExperiments, ds := ds,
    resultsLoaded := resultsLoaded,
    writes :=
      [(mpiDatasetPath, .datasetFile ds), (mpiScriptPath, .textFile mpiScriptText)] ++
        (match resultsLoaded with
         | some r =>
           [("example_files/mpi_example_brief",
             .reportDir (lib.create_standard_report r "example_files/mpi_example_brief"
               "MPI Example Report"))]
         | none => []),
    events := mpiNotebookEvents }

/-- The `do_long_sequence_gst` arguments built by the MPI script. -/
def mpiScriptGstArgs (lib : PygstiLib) (world : Comm) (ds : DataSet) : GstArgs :=
  { ds := ds, targetGateset := lib.set_all_parameterizations lib.std1Q_gs_target "TP",
    prepFids := lib.std1Q_fiducials, measFids := lib.std1Q_fiducials,
    germs := lib.std1Q_germs, maxLengths := [1, 2, 4, 8, 16, 32],
    verbosity := some 2, advancedOptions := none,
    memLimit := some (.rat (21/10 * 1024 ^ 3)),
    gaugeOptParams := some ⟨[("spam", 1/100), ("gates", 1), ("Gx", 2)]⟩,
    comm := some world }

/-- Output record of one process of the standalone MPI script. -/
structure MpiScriptOut where
  gs_target : GS
  ds : Option DataSet
  results : Option Results
  writes : List (String × FileVal)
  events : List Ev
  commUses : List CommUse
  passedComm : Option Comm

/-- Embedding of one process of the standalone MPI script: `world` is the
communicator obtained from `MPI.COMM_WORLD` (the same object on every
process) and `myRank` is what `comm.Get_rank()` returns on this process.
The script loads the data set from disk, runs `do_long_sequence_gst` with
the communicator, and pickles the results only on rank 0. -/
def mpiScriptRun (lib : PygstiLib) (fs : FS) (world : Comm) (myRank : ℕ) : MpiScriptOut :=
  let ds : Option DataSet :=
    match fs mpiDatasetPath with
    | some (.datasetFile d) => some d
    | _ => none
  let results := ds.map (fun d => lib.do_long_sequence_gst (mpiScriptGstArgs lib world d))
  { gs_target := lib.set_all_parameterizations lib.std1Q_gs_target "TP",
    ds := ds, results := results,
    writes :=
      if myRank = 0 then
        match results with
        | some r => [(mpiResultsPath, .pickleResults r)]
        | none => []
      else [],
    events := mpiScriptEvents myRank,
    commUses := [.getRank, .passToLib "do_long_sequence_gst", .getRank, .getRank],
    passedComm := some world }

/-- A value of the germ-selection example's `candidate_counts` dictionary:
either the string `"all upto"` or a germ count. -/
inductive CandCount
  | allUpto
  | num (n : ℕ)
deriving DecidableEq

/-- The `candidate_counts` dictionary of the germ-selection example:
germ length paired with the number of candidates at that length. -/
def germSelCandidateCounts : List (ℕ × CandCount) :=
  [(3, .allUpto), (4, .num 30), (5, .num 20), (6, .num 20), (7, .num 20), (8, .num 20)]

/-- The keyword arguments of the `build_up_breadth` call in
`do_greedy_germsel` (`force` is the forced-germ list). -/
def germSelBupParams (forced : List GateString) : BupParams :=
  { randomizationStrength := 1/1000, numCopies := 3, seed := 1234,
    gatePenalty := 10, scoreFunc := "all", tol := 1/1000000, threshold := 100000,
    pretest := false, force := forced, verbosity := 5, memLimit := 1/2 * 1024 ^ 3 }

/-- Output record of one process of the germ-selection script.  `raised`
records an uncaught exception (by its Python name) and `germsReturned` the
value of the `return germs` statement when it is reached. -/
structure GermSelOut where
  candidate_germs : List GateString
  available_germs : List GateString
  germs : List GateString
  writes : List (String × FileVal)
  raised : Option String
  germsReturned : Option (List GateString)
  commUses : List CommUse
  passedComm : Option Comm

/-- Embedding of `do_greedy_germsel` from the MPI germ-selection example:
gather candidate germs, deduplicate, call `build_up_breadth` with the
communicator, and reach the `pickle.dump` only when `comm` is `None` or this
process has rank 0.  The script never imports `pickle`, so on that branch
the two prints run and then `pickle.dump(germs, open(outFilename, "wb"))`
raises `NameError` while resolving `pickle.dump`, before `open()` is
evaluated: no file is ever written and the function does not return.  On
every other rank the guard is false and `return germs` is reached. -/
def do_greedy_germsel (lib : PygstiLib) (gs_target : GS) (forced_germs : List GateString)
    (candidate_counts : List (ℕ × CandCount)) (seedStart : ℕ) (outFilename : String)
    (comm : Option Comm) (myRank : ℕ) : GermSelOut :=
  let candidate_germs :=
    (candidate_counts.enum.map (fun ic =>
      match ic.2.2 with
      | .allUpto => lib.list_all_gatestrings_without_powers_and_cycles gs_target.gates ic.2.1
      | .num cnt =>
        lib.list_random_gatestrings_onelen gs_target.gates ic.2.1 cnt (seedStart + ic.1))).flatten
  let available_germs := remove_duplicates (forced_germs ++ candidate_germs)
  let germs :=
    lib.build_up_breadth gs_target available_germs (germSelBupParams forced_germs) comm
  { candidate_germs := candidate_germs, available_germs := available_germs, germs := germs,
    writes := [],
    raised := if comm = none ∨ myRank = 0 then some "NameError" else none,
    germsReturned := if comm = none ∨ myRank = 0 then none else some germs,
    commUses :=
      [.passToLib "build_up_breadth"] ++ (if comm = none then [] else [.getRank]),
    passedComm := comm }

/-- The forced germs of the germ-selection example: one singleton gate
string per gate of the 2-qubit target. -/
def germSelForced (lib : PygstiLib) : List GateString :=
  gatestring_list (lib.std2Q_gs_target.gates.map (fun gl => [gl]))

/-- Embedding of one process of the germ-selection script: `world` is
`MPI.COMM_WORLD` and `myRank` is its rank on this process. -/
def germSelRun (lib : PygstiLib) (world : Comm) (myRank : ℕ) : GermSelOut :=
  do_greedy_germsel lib lib.std2Q_gs_target (germSelForced lib) germSelCandidateCounts 4
    "germs_EXAMPLE.pkl" (some world) myRank

/-- Output record of the qutrit GST example. -/
structure QutritOut where
  gs_target0 : GS
  fiducialPrep0 : List GateString
  fiducialMeasure0 : List GateString
  germs0 : List GateString
  gs_target : GS
  fiducialPrep : List GateString
  fiducialMeasure : List GateString
  germs : List GateString
  maxLengths : List ℕ
  expList : List GateString
  gs_datagen : GS
  DS : DataSet
  stdArgs : StdPracArgs
  result : Results
  writes : List (String × FileVal)

/-- Embedding of the qutrit GST example (`part_003`).  The hand-written
fiducials and germs of cell 3 are kept as the `...0` fields; cell 4 rebinds
the same Python variables to the standard `stdQT_XYIMS` quantities, which
the rest of the notebook uses. -/
def qutritRun (lib : PygstiLib) : QutritOut :=
  let gs_target0 := lib.make_qutrit_gateset (.rat 0) .piDiv2 .piDiv2 .piDiv2 (.rat 0) "qt"
  let fiducialPrep0 := gatestring_list
    [[], ["Gy"], ["Gx"], ["Gm"], ["Gx", "Gx"], ["Gm", "Gy"], ["Gm", "Gx"],
     ["Gy", "Gy", "Gy"], ["Gx", "Gx", "Gx"]]
  let fiducialMeasure0 := gatestring_list
    [[], ["Gy"], ["Gx"], ["Gm"], ["Gy", "Gm"], ["Gx", "Gm"]]
  let germs0 := gatestring_list
    [["Gi"], ["Gy"], ["Gx"], ["Gm"],
     ["Gi", "Gy"], ["Gi", "Gx"], ["Gi", "Gm"], ["Gy", "Gx"], ["Gy", "Gm"], ["Gx", "Gm"],
     ["Gi", "Gi", "Gy"], ["Gi", "Gi", "Gx"], ["Gi", "Gi", "Gm"],
     ["Gi", "Gy", "Gy"], ["Gi", "Gy", "Gx"], ["Gi", "Gy", "Gm"],
     ["Gi", "Gx", "Gy"], ["Gi", "Gx", "Gx"], ["Gi", "Gx", "Gm"],
     ["Gi", "Gm", "Gy"], ["Gi", "Gm", "Gx"], ["Gi", "Gm", "Gm"],
     ["Gy", "Gy", "Gx"], ["Gy", "Gy", "Gm"], ["Gy", "Gx", "Gx"], ["Gy", "Gx", "Gm"],
     ["Gy", "Gm", "Gx"], ["Gy", "Gm", "Gm"], ["Gx", "Gx", "Gm"], ["Gx", "Gm", "Gm"]]
  let gs_target := lib.stdQT_gs_target
  let fiducialPrep := lib.stdQT_prepStrs
  let fiducialMeasure := lib.stdQT_effectStrs
  let germs := lib.stdQT_germs_lite
  let maxLengths := [1, 2, 4]
  let expList :=
    lib.make_lsgst_experiment_list (.inr gs_target.gates) fiducialPrep fiducialMeasure germs
      maxLengths
  let gs_datagen := lib.depolarize gs_target (.rat (1/20)) (.rat 0)
  let DS := lib.generate_fake_data gs_datagen expList 500 "multinomial" 1234
  let stdArgs : StdPracArgs :=
    { ds := DS, targetGateset := gs_target, prepFids := fiducialPrep,
      measFids := fiducialMeasure, germs := germs, maxLengths := maxLengths,
      verbosity := some 2, comm := none, memLimit := some (.rat (3 * 1024 ^ 3)),
      modes := some "TP,CPTP" }
  let result := lib.do_stdpractice_gst stdArgs
  { gs_target0 := gs_target0, fiducialPrep0 := fiducialPrep0,
    fiducialMeasure0 := fiducialMeasure0, germs0 := germs0, gs_target := gs_target,
    fiducialPrep := fiducialPrep, fiducialMeasure := fiducialMeasure, germs := germs,
    maxLengths := maxLengths, expList := expList, gs_datagen := gs_datagen, DS := DS,
    stdArgs := stdArgs, result := result,
    writes :=
      [("example_files/dataTemplate_qutrit_maxL=4.txt",
        .emptyDatasetFile expList "## Columns = 0bright count, 1bright count, 2bright count"),
       ("example_files/sampleQutritReport",
        .reportDir (lib.create_standard_report result "example_files/sampleQutritReport"
          "Example Qutrit Report"))] }

/-- Path of the pickled 2-qubit results the error-bars notebook loads. -/
def easy2qInPath : String := "example_files/easy_2q_results.pkl"

/-- Path of the pickled results (with confidence info) the error-bars
notebook writes. -/
def easy2qOutPath : String := "example_files/easy_2q_results_withCI.pkl"

/-- The memory limit the error-bars notebook sets: `2.5*(1024.0)**3` bytes
(exactly representable, so the float value is this rational). -/
def memLimitValue : ℚ := 2.5 * 1024 ^ 3

/-- The assignment
`results.estimates['default'].parameters['memLimit'] = 2.5*(1024.0)**3`
restricted to one estimate: update only the `memLimit` parameter. -/
def setMemLimit (e : Estimate) : Estimate :=
  { e with parameters := fun p =>
      if p = "memLimit" then some (.num memLimitValue) else e.parameters p }

/-- The first cell of the error-bars notebook: set the `memLimit` parameter
of the default estimate; everything else is only read (printed). -/
def memLimitCell (r : Results) : Results :=
  { r with estimates := fun k =>
      if k = "default" then (r.estimates "default").map setMemLimit
      else r.estimates k }

/-- The execution trace of the 2Q-GST error-bars notebook's cells, in
order. -/
def errorBarsEvents : List Ev :=
  [.loadPickle easy2qInPath, .printOut, .setParam "default" "memLimit", .printOut,
   .addConfRegionFactory "go0" "final", .computeHessianEv,
   .projectHessianEv "intrinsic error", .printOut, .dumpPickle easy2qOutPath]

/-- Output record of the 2Q-GST error-bars notebook. -/
structure ErrorBarsOut where
  results1 : Results
  crfact : Option CRF
  results2 : Results
  writes : List (String × FileVal)
  events : List Ev

/-- Embedding of the 2Q-GST error-bars notebook (`part_000`, second
document): load pickled results, set a memory limit, add a confidence-region
factory for `('go0', 'final')`, compute and project its Hessian, then write
the results back to disk.  `results0` is the unpickled input; `comm` is
`None` in this notebook. -/
def errorBarsRun (lib : PygstiLib) (results0 : Results) : ErrorBarsOut :=
  let results1 := memLimitCell results0
  let crf0 := (results1.estimates "default").map
    (fun e => lib.add_confidence_region_factory e "go0" "final")
  let crf1 := crf0.map (fun cf => lib.compute_hessian cf none)
  let crfact := crf1.map (fun cf => lib.project_hessian cf "intrinsic error")
  let results2 : Results :=
    { results1 with estimates := fun k =>
        if k = "default" then
          (results1.estimates "default").map (fun e =>
            { e with crfactories := fun pr =>
                if pr = ("go0", "final") then crfact else e.crfactories pr })
        else results1.estimates k }
  { results1 := results1, crfact := crfact, results2 := results2,
    writes := [(easy2qOutPath, .pickleResults results2)],
    events := errorBarsEvents }

/-- A concrete gate value, used to instantiate the interface. -/
def gate1 : Gate := ⟨0⟩

/-- A concrete gate set whose labels contain an adjacent `Gx, Gi` pair. -/
def gs1 : GS := ⟨["Gi", "Gx", "Gy"], 0⟩

/-- A concrete communicator value. -/
def comm1 : Comm := ⟨0⟩

/-- A concrete confidence-region factory value. -/
def crf1 : CRF := ⟨0⟩

/-- An estimate with empty dictionaries. -/
def emptyEstimate : Estimate := ⟨fun _ => none, fun _ => none, fun _ => none⟩

/-- A results object with no estimates and an empty data set. -/
def emptyResults : Results := ⟨fun _ => none, ⟨[]⟩⟩

/-- One concrete interpretation of the library interface, used to evaluate
the embeddings on closed inputs.  Its `make_lsgst_experiment_list` returns a
list containing a `Gx, Gi` pair (as the real one does for the standard
1-qubit design, whose germs include `Gx`-then-`Gi` patterns), and its
`generate_fake_data` keys the data set by the given experiment list (as the
real one does). -/
def lib1 : PygstiLib :=
  { std1Q_gs_target := gs1, std1Q_fiducials := [], std1Q_prepStrs := [],
    std1Q_effectStrs := [], std1Q_germs := [], std2Q_gs_target := gs1,
    stdQT_gs_target := gs1, stdQT_prepStrs := [], stdQT_effectStrs := [],
    stdQT_germs_lite := [],
    make_qutrit_gateset := fun _ _ _ _ _ _ => gs1,
    depolarize := fun g _ _ => g,
    gsGet := fun _ _ => gate1,
    gsSet := fun g _ _ => g,
    gsCopy := fun g => g,
    gateCopy := fun g => g,
    gateDepolarize := fun g _ => g,
    gateRotate := fun g _ _ => g,
    basisOf := fun _ => ⟨0⟩,
    set_all_parameterizations := fun g _ => g,
    make_lsgst_experiment_list := fun _ _ _ _ _ => [["Gx", "Gi"]],
    generate_fake_data := fun _ l _ _ _ => ⟨l⟩,
    do_long_sequence_gst := fun _ => emptyResults,
    do_stdpractice_gst := fun _ => emptyResults,
    gaugeopt_to_target := fun g _ => g,
    frobeniusdist := fun _ _ => 0,
    add_confidence_region_factory := fun _ _ _ => crf1,
    compute_hessian := fun cf _ => cf,
    project_hessian := fun cf _ => cf,
    list_all_gatestrings_without_powers_and_cycles := fun _ _ => [],
    list_random_gatestrings_onelen := fun _ _ _ _ => [],
    build_up_breadth := fun _ l _ _ => l,
    create_standard_report := fun _ _ _ => 0 }

/-- A concrete file store holding the parallel-GST example's data set. -/
def fs1 : FS :=
  fun p => if p = mpiDatasetPath then some (.datasetFile ⟨[["Gx", "Gi"]]⟩) else none

/-- The results the MPI script computes under the concrete interpretation
`lib1` and file store `fs1`. -/
def mpiRes1 : Results :=
  lib1.do_long_sequence_gst (mpiScriptGstArgs lib1 comm1 ⟨[["Gx", "Gi"]]⟩)

/-- A concrete estimate with one unrelated parameter, for the C10 witness. -/
def wEstimate : Estimate :=
  ⟨fun p => if p = "objective" then some (.str "logl") else none, fun _ => none, fun _ => none⟩

/-- A concrete results object whose default estimate is `wEstimate`. -/
def wResults : Results :=
  ⟨fun k => if k = "default" then some wEstimate else none, ⟨[["Gx"]]⟩⟩

-- ## Theorems

theorem replaceAllGo_fuel_irrel [DecidableEq α] (pat repl : List α) :
    ∀ (f₁ : ℕ), ∀ (f₂ : ℕ) (s : List α), s.length ≤ f₁ → s.length ≤ f₂ →
      replaceAllGo pat repl f₁ s = replaceAllGo pat repl f₂ s := by
  intro f₁
  induction f₁ with
  | zero =>
    intro f₂ s h₁ _
    have hs : s = [] := List.length_eq_zero.mp (Nat.le_zero.mp h₁)
    subst hs
    cases f₂ <;> rfl
  | succ f ih =>
    intro f₂ s h₁ h₂
    cases s with
    | nil => cases f₂ <;> rfl
    | cons a t =>
      cases f₂ with
      | zero => exact absurd h₂ (by simp)
      | succ g =>
        simp only [replaceAllGo]
        have hlt : t.length ≤ f := by
          have := h₁
          simp only [List.length_cons] at this
          omega
        have hlg : t.length ≤ g := by
          have := h₂
          simp only [List.length_cons] at this
          omega
        by_cases hp : pat ≠ [] ∧ pat.isPrefixOf (a :: t)
        · simp only [if_pos hp]
          have hd : (t.drop (pat.length - 1)).length ≤ t.length := by
            rw [List.length_drop]
            omega
          rw [ih g _ (le_trans hd hlt) (le_trans hd hlg)]
        · simp only [if_neg hp]
          rw [ih g _ hlt hlg]

theorem replaceAll_nil [DecidableEq α] (pat repl : List α) :
    replaceAll pat repl [] = [] := rfl

theorem replaceAll_cons [DecidableEq α] (pat repl : List α) (a : α) (t : List α) :
    replaceAll pat repl (a :: t) =
      if pat ≠ [] ∧ pat.isPrefixOf (a :: t) then
        repl ++ replaceAll pat repl (t.drop (pat.length - 1))
      else
        a :: replaceAll pat repl t := by
  show replaceAllGo pat repl (t.length + 1) (a :: t) = _
  simp only [replaceAllGo]
  by_cases hp : pat ≠ [] ∧ pat.isPrefixOf (a :: t)
  · simp only [if_pos hp]
    have hd : (t.drop (pat.length - 1)).length ≤ t.length := by
      rw [List.length_drop]
      omega
    rw [replaceAllGo_fuel_irrel pat repl t.length _ _ hd le_rfl]
    rfl
  · simp only [if_neg hp]
    rfl

/-- A single-symbol replacement rule acts as a pointwise relabelling. -/
theorem replaceAll_single [DecidableEq α] (x y : α) (s : List α) :
    replaceAll [x] [y] s = s.map (fun a => if a = x then y else a) := by
  induction s with
  | nil => rfl
  | cons a t ih =>
    rw [replaceAll_cons]
    by_cases hax : a = x
    · subst hax
      have hp : (([a] : List α) ≠ []) ∧ ([a] : List α).isPrefixOf (a :: t) := by
        refine ⟨by simp, ?_⟩
        simp [List.isPrefixOf]
      rw [if_pos hp]
      simp [ih]
    · have hp : ¬((([x] : List α) ≠ []) ∧ ([x] : List α).isPrefixOf (a :: t)) := by
        rintro ⟨-, hpre⟩
        have hxa : x = a := by simpa [List.isPrefixOf] using hpre
        exact hax hxa.symm
      rw [if_neg hp, ih]
      simp [hax]

/-- After the reversion rule, no `Gi2` label remains in a gate string. -/
theorem revRule_no_Gi2 (s : GateString) :
    "Gi2" ∉ manipulate_gatestring s contextDepRevRules := by
  unfold manipulate_gatestring contextDepRevRules
  simp only [List.foldl]
  rw [replaceAll_single]
  intro hmem
  rcases List.mem_map.mp hmem with ⟨a, _, ha⟩
  by_cases h : a = "Gi2" <;> simp [h] at ha

/-- Applying the forward rule and then the reversion rule returns every
`Gi2`-free gate string unchanged. -/
theorem fwd_then_rev (s : GateString) (h : "Gi2" ∉ s) :
    manipulate_gatestring (manipulate_gatestring s contextDepRules) contextDepRevRules = s := by
  unfold manipulate_gatestring contextDepRules contextDepRevRules
  simp only [List.foldl]
  rw [replaceAll_single]
  suffices key : ∀ (n : ℕ) (s : GateString), s.length ≤ n → "Gi2" ∉ s →
      (replaceAll ["Gx", "Gi"] ["Gx", "Gi2"] s).map
        (fun a => if a = "Gi2" then "Gi" else a) = s by
    exact key s.length s le_rfl h
  intro n
  induction n with
  | zero =>
    intro s hs _
    have hnil : s = [] := List.length_eq_zero.mp (Nat.le_zero.mp hs)
    subst hnil
    rfl
  | succ n ih =>
    intro s hs hGi2
    cases s with
    | nil => rfl
    | cons a t =>
      rw [replaceAll_cons]
      by_cases hp : ((["Gx", "Gi"] : GateString) ≠ []) ∧
          (["Gx", "Gi"] : GateString).isPrefixOf (a :: t)
      · rcases hp with ⟨-, hpre⟩
        cases t with
        | nil => simp [List.isPrefixOf] at hpre
        | cons b t' =>
          have hab : a = "Gx" ∧ b = "Gi" := by
            constructor
            · have := hpre
              simp [List.isPrefixOf] at this
              exact this.1.symm
            · have := hpre
              simp [List.isPrefixOf] at this
              exact this.2.symm
          rcases hab with ⟨ha, hb⟩
          subst ha
          subst hb
          have hp' : ((["Gx", "Gi"] : GateString) ≠ []) ∧
              (["Gx", "Gi"] : GateString).isPrefixOf ("Gx" :: "Gi" :: t') := by
            refine ⟨by simp, by simp [List.isPrefixOf]⟩
          rw [if_pos hp']
          have ht' : "Gi2" ∉ t' := by
            intro hm
            exact hGi2 (by simp [hm])
          have hlen : t'.length ≤ n := by
            simp only [List.length_cons] at hs
            omega
          have hrec := ih t' hlen ht'
          have hdrop : (("Gi" :: t').drop ((["Gx", "Gi"] : GateString).length - 1)) = t' := by
            rfl
          rw [hdrop]
          have h1 : (if ("Gx" : String) = "Gi2" then ("Gi" : String) else "Gx") = "Gx" := by
            decide
          have h2 : (if ("Gi2" : String) = "Gi2" then ("Gi" : String) else "Gi2") = "Gi" := by
            decide
          simp only [List.map_append, List.map_cons, List.map_nil, h1, h2, hrec]
          rfl
      · rw [if_neg hp]
        have ha : a ≠ "Gi2" := by
          intro hEq
          exact hGi2 (by simp [hEq])
        have ht : "Gi2" ∉ t := by
          intro hm
          exact hGi2 (by simp [hm])
        have hlen : t.length ≤ n := by
          simp only [List.length_cons] at hs
          omega
        simp only [List.map_cons]
        rw [ih t hlen ht]
        simp [ha]

theorem pctRun_out_lit (m : String → String) :
    ∀ (l : List Char), (∀ c ∈ l, c ≠ '%') → ∀ (rest : List Char),
      pctRun m .out (l ++ rest) = l ++ pctRun m .out rest := by
  intro l
  induction l with
  | nil =>
    intro _ rest
    rfl
  | cons c l' ih =>
    intro h rest
    have hc : c ≠ '%' := h c (by simp)
    have ih' := ih (fun d hd => h d (by simp [hd])) rest
    simp only [List.cons_append, pctRun, pctStep, if_neg hc, List.append_eq,
      List.nil_append]
    rw [ih']

theorem pctRun_key_lemma (m : String → String) :
    ∀ (k : List Char), (∀ c ∈ k, c ≠ ')') → ∀ (acc rest : List Char),
      pctRun m (.key acc) (k ++ ')' :: 's' :: rest) =
        (m (String.mk (acc ++ k))).data ++ pctRun m .out rest := by
  intro k
  induction k with
  | nil =>
    intro _ acc rest
    simp [pctRun, pctStep]
  | cons c k' ih =>
    intro h acc rest
    have hc : c ≠ ')' := h c (by simp)
    have ih' := ih (fun d hd => h d (by simp [hd])) (acc ++ [c]) rest
    simp only [List.cons_append, pctRun, pctStep, if_neg hc, List.append_eq,
      List.nil_append]
    rw [ih']
    simp

theorem pctRun_hole (m : String → String) (k : List Char)
    (h : ∀ c ∈ k, c ≠ ')') (rest : List Char) :
    pctRun m .out ('%' :: '(' :: (k ++ ')' :: 's' :: rest)) =
      (m (String.mk k)).data ++ pctRun m .out rest := by
  have step : pctRun m .out ('%' :: '(' :: (k ++ ')' :: 's' :: rest)) =
      pctRun m (.key []) (k ++ ')' :: 's' :: rest) := by
    simp [pctRun, pctStep]
  rw [step, pctRun_key_lemma m k h [] rest]
  simp

theorem pctRun_template (m : String → String) :
    ∀ (t : List TChunk), t.all TChunk.okb = true →
      pctRun m .out (templateChars t) = substChars m t := by
  intro t
  induction t with
  | nil =>
    intro _
    rfl
  | cons ch t' ih =>
    intro hall
    rw [List.all_cons, Bool.and_eq_true] at hall
    have hrest := ih hall.2
    cases ch with
    | lit s =>
      have hs : ∀ c ∈ s.data, c ≠ '%' := by
        have h1 := hall.1
        simp only [TChunk.okb, List.all_eq_true, decide_eq_true_eq] at h1
        exact h1
      simp only [templateChars] at hrest
      simp only [templateChars, List.map_cons, List.flatten_cons, TChunk.src]
      rw [pctRun_out_lit m s.data hs _, hrest]
      simp [substChars, TChunk.rendered]
    | hole k =>
      have hk : ∀ c ∈ k.data, c ≠ ')' := by
        have h1 := hall.1
        simp only [TChunk.okb, List.all_eq_true, decide_eq_true_eq] at h1
        exact h1
      simp only [templateChars, List.map_cons, List.flatten_cons, TChunk.src,
        List.cons_append, List.append_assoc, List.nil_append, List.singleton_append]
      rw [pctRun_hole m k.data hk _]
      simp only [templateChars] at hrest
      rw [hrest]
      have hEta : ({ data := k.data } : String) = k := rfl
      simp [substChars, TChunk.rendered, hEta]

/-- C2: rendering the gauge-invariant error-metrics HTML template with
Python percent-formatting is pure substitution into a fixed skeleton: for
every mapping supplying a string for each placeholder key, each `%(key)s`
occurrence becomes the mapping's value for `key` and every other character
of the template text is left unchanged; the placeholder keys are exactly the
seven listed ones, in order. -/
theorem C2_template_substitution :
    (∀ m : String → String,
        pctSubst m (templateChars gaugeInvTemplate) = substChars m gaugeInvTemplate)
    ∧ templateKeys gaugeInvTemplate = gaugeInvKeys := by
  constructor
  · intro m
    exact pctRun_template m gaugeInvTemplate (by decide)
  · decide

/-- C7: the summary-notebook text template parses into an alternating
sequence of marker-delimited blocks: markdown, code, markdown, code,
markdown, code (three markdown/code pairs, the first block markdown, every
code block immediately preceded by a markdown block), and concatenating each
block's marker line and body lines reconstructs the file, so every line
belongs to exactly one block. -/
theorem C7_summary_blocks :
    (parseBlocks summaryLines).map TBlock.kind =
      [.markdown, .code, .markdown, .code, .markdown, .code]
    ∧ ((parseBlocks summaryLines).map (fun b => markerOf b.kind :: b.body)).flatten
        = summaryLines
    ∧ (parseBlocks summaryLines).length = 6 := by
  refine ⟨by decide, by decide, by decide⟩

/-- C1: every GST estimation operation the notebooks perform - LGST and
iterative MLGST fitting (through the `do_long_sequence_gst` and
`do_stdpractice_gst` drivers), gauge optimization, confidence-region/Hessian
computation, and germ-selection search - is an opaque call into the external
library: in each embedded notebook the operation's result is literally the
corresponding uninterpreted `PygstiLib` field applied to the arguments the
notebook builds, for every interpretation of the interface; no source file
implements any of these algorithms. -/
theorem C1_opaque_library_calls :
    ∀ (lib : PygstiLib) (fs : FS) (world : Comm) (rk : ℕ) (r0 : Results),
      (gettingStartedRun lib).results = lib.do_stdpractice_gst (gettingStartedRun lib).stdArgs
      ∧ (contextDepRun lib).results = lib.do_long_sequence_gst (contextDepRun lib).gstArgsA
      ∧ (contextDepRun lib).resultsB = lib.do_long_sequence_gst (contextDepRun lib).gstArgsB
      ∧ (contextDepRun lib).resultsC = lib.do_long_sequence_gst (contextDepRun lib).gstArgsC
      ∧ (contextDepRun lib).gsA =
          ((contextDepRun lib).results.finalEstimate).map
            (fun g => lib.gaugeopt_to_target g (contextDepRun lib).gs_datagen)
      ∧ (qutritRun lib).result = lib.do_stdpractice_gst (qutritRun lib).stdArgs
      ∧ (mpiScriptRun lib fs world rk).results =
          ((mpiScriptRun lib fs world rk).ds).map
            (fun d => lib.do_long_sequence_gst (mpiScriptGstArgs lib world d))
      ∧ (germSelRun lib world rk).germs =
          lib.build_up_breadth lib.std2Q_gs_target (germSelRun lib world rk).available_germs
            (germSelBupParams (germSelForced lib)) (some world)
      ∧ (errorBarsRun lib r0).crfact =
          ((memLimitCell r0).estimates "default").map
            (fun e => lib.project_hessian
              (lib.compute_hessian (lib.add_confidence_region_factory e "go0" "final") none)
              "intrinsic error") := by
  intro lib fs world rk r0
  refine ⟨rfl, rfl, rfl, rfl, rfl, rfl, rfl, rfl, ?_⟩
  show ((((memLimitCell r0).estimates "default").map
      (fun e => lib.add_confidence_region_factory e "go0" "final")).map
        (fun cf => lib.compute_hessian cf none)).map
          (fun cf => lib.project_hessian cf "intrinsic error") = _
  simp [Option.map_map]
  rfl

/-- C3: in both MPI examples the communicator obtained from
`MPI.COMM_WORLD` is passed unchanged as the `comm` argument of a single
library call (`germselection.build_up_breadth` in the germ-selection script,
`pygsti.do_long_sequence_gst` in the parallel-GST script); the scripts' own
code performs no communication, the only other use of the communicator being
`comm.Get_rank()`. -/
theorem C3_comm_passthrough :
    ∀ (lib : PygstiLib) (fs : FS) (world : Comm) (rk : ℕ),
      (germSelRun lib world rk).passedComm = some world
      ∧ (germSelRun lib world rk).commUses =
          [CommUse.passToLib "build_up_breadth", CommUse.getRank]
      ∧ (mpiScriptRun lib fs world rk).passedComm = some world
      ∧ (mpiScriptRun lib fs world rk).commUses =
          [CommUse.getRank, CommUse.passToLib "do_long_sequence_gst",
           CommUse.getRank, CommUse.getRank] := by
  intro lib fs world rk
  refine ⟨rfl, ?_, rfl, rfl⟩
  show [CommUse.passToLib "build_up_breadth"] ++
      (if (some world : Option Comm) = none then [] else [CommUse.getRank]) = _
  simp

/-- C4: the 2Q-GST error-bars notebook is strictly sequential: the output
pickle is written only after both `compute_hessian` and
`project_hessian('intrinsic error')` have completed on the
confidence-region factory added for `('go0', 'final')`, and the workflow
order is load, drivers, write. -/
theorem C4_error_bars_order :
    errorBarsEvents.count (.dumpPickle easy2qOutPath) = 1
    ∧ errorBarsEvents.count .computeHessianEv = 1
    ∧ errorBarsEvents.count (.projectHessianEv "intrinsic error") = 1
    ∧ errorBarsEvents.indexOf (.loadPickle easy2qInPath) <
        errorBarsEvents.indexOf (.addConfRegionFactory "go0" "final")
    ∧ errorBarsEvents.indexOf (.addConfRegionFactory "go0" "final") <
        errorBarsEvents.indexOf .computeHessianEv
    ∧ errorBarsEvents.indexOf .computeHessianEv <
        errorBarsEvents.indexOf (.projectHessianEv "intrinsic error")
    ∧ errorBarsEvents.indexOf .computeHessianEv <
        errorBarsEvents.indexOf (.dumpPickle easy2qOutPath)
    ∧ errorBarsEvents.indexOf (.projectHessianEv "intrinsic error") <
        errorBarsEvents.indexOf (.dumpPickle easy2qOutPath)
    ∧ ∀ (lib : PygstiLib) (r0 : Results), (errorBarsRun lib r0).events = errorBarsEvents := by
  refine ⟨by decide, by decide, by decide, by decide, by decide, by decide, by decide,
    by decide, fun _ _ => rfl⟩

/-- C5 counterexample: in the context-dependence notebook the list fed to
`generate_fake_data` is not the same list `make_lsgst_experiment_list`
produced: the notebook first applies the replacement rule
`(Gx, Gi) → (Gx, Gi2)` to it.  Under the concrete interpretation `lib1`
(whose experiment list contains a `Gx, Gi` pair, as the real one does) the
two lists differ, and the data set is generated from the transformed one. -/
theorem C5_cex :
    (contextDepRun lib1).listOfExperiments ≠ (contextDepRun lib1).listOfExperiments_raw
    ∧ (contextDepRun lib1).ds0 =
        lib1.generate_fake_data (contextDepRun lib1).gs_datagen
          (contextDepRun lib1).listOfExperiments 10000 "binomial" 1234 := by
  refine ⟨by decide, rfl⟩

/-- C5 amended: in every notebook that generates simulated data the
experiment design comes from `make_lsgst_experiment_list` applied to the
target gates, preparation fiducials, measurement fiducials, germs and
max-lengths; in the Getting-Started, parallel-GST and qutrit notebooks that
same list is passed unchanged to `generate_fake_data`, while in the
context-dependence notebook it is first transformed by
`manipulate_gatestring_list` with the rule `(Gx, Gi) → (Gx, Gi2)` and the
data set is generated from the transformed list. -/
theorem C5_amended :
    ∀ (lib : PygstiLib) (fs : FS),
      (gettingStartedRun lib).listOfExperiments =
        lib.make_lsgst_experiment_list (.inl lib.std1Q_gs_target) lib.std1Q_prepStrs
          lib.std1Q_effectStrs lib.std1Q_germs [1, 2, 4, 8, 16, 32]
      ∧ (gettingStartedRun lib).ds =
          lib.generate_fake_data (gettingStartedRun lib).gs_datagen
            (gettingStartedRun lib).listOfExperiments 1000 "binomial" 1234
      ∧ (mpiNotebookRun lib fs).listOfExperiments =
          lib.make_lsgst_experiment_list (.inr lib.std1Q_gs_target.gates) lib.std1Q_fiducials
            lib.std1Q_fiducials lib.std1Q_germs [1, 2, 4, 8, 16, 32]
      ∧ (mpiNotebookRun lib fs).ds =
          lib.generate_fake_data (mpiNotebookRun lib fs).gs_datagen
            (mpiNotebookRun lib fs).listOfExperiments 1000 "binomial" 1234
      ∧ (qutritRun lib).expList =
          lib.make_lsgst_experiment_list (.inr lib.stdQT_gs_target.gates) lib.stdQT_prepStrs
            lib.stdQT_effectStrs lib.stdQT_germs_lite [1, 2, 4]
      ∧ (qutritRun lib).DS =
          lib.generate_fake_data (qutritRun lib).gs_datagen (qutritRun lib).expList
            500 "multinomial" 1234
      ∧ (contextDepRun lib).listOfExperiments_raw =
          lib.make_lsgst_experiment_list (.inl lib.std1Q_gs_target) lib.std1Q_fiducials
            lib.std1Q_fiducials lib.std1Q_germs [1, 2, 4, 8, 16, 32]
      ∧ (contextDepRun lib).listOfExperiments =
          manipulate_gatestring_list (contextDepRun lib).listOfExperiments_raw contextDepRules
      ∧ (contextDepRun lib).ds0 =
          lib.generate_fake_data (contextDepRun lib).gs_datagen
            (contextDepRun lib).listOfExperiments 10000 "binomial" 1234 := by
  intro lib fs
  exact ⟨rfl, rfl, rfl, rfl, rfl, rfl, rfl, rfl, rfl⟩

/-- C6: in the parallel-GST example the synthetic data set is generated
exactly once, serially, with fixed seed 1234, and written to disk before
the `mpiexec` run; the MPI script generates no data and only loads that
file, so the data set a process operates on is the same for every rank. -/
theorem C6_dataset_rank_independent :
    mpiNotebookEvents.countP isGenEv = 1
    ∧ mpiNotebookEvents.indexOf (.generateFakeData 1000 "binomial" 1234) <
        mpiNotebookEvents.indexOf (.writeDatasetFile mpiDatasetPath)
    ∧ mpiNotebookEvents.indexOf (.writeDatasetFile mpiDatasetPath) <
        mpiNotebookEvents.indexOf (.runMpiexec 3 mpiScriptPath)
    ∧ (∀ (lib : PygstiLib) (fs : FS),
        (mpiNotebookRun lib fs).ds =
          lib.generate_fake_data (mpiNotebookRun lib fs).gs_datagen
            (mpiNotebookRun lib fs).listOfExperiments 1000 "binomial" 1234
        ∧ (mpiNotebookRun lib fs).writes.take 1 =
            [(mpiDatasetPath, .datasetFile (mpiNotebookRun lib fs).ds)]
        ∧ (mpiNotebookRun lib fs).events = mpiNotebookEvents)
    ∧ (∀ rk : ℕ, (mpiScriptEvents rk).countP isGenEv = 0)
    ∧ (∀ (lib : PygstiLib) (fs : FS) (world : Comm) (rk : ℕ),
        (mpiScriptRun lib fs world rk).ds =
          (match fs mpiDatasetPath with
           | some (.datasetFile d) => some d
           | _ => none))
    ∧ (∀ (lib : PygstiLib) (fs : FS) (world : Comm) (r₁ r₂ : ℕ),
        (mpiScriptRun lib fs world r₁).ds = (mpiScriptRun lib fs world r₂).ds
        ∧ (mpiScriptRun lib fs world r₁).results = (mpiScriptRun lib fs world r₂).results) := by
  refine ⟨by decide, by decide, by decide, fun _ _ => ⟨rfl, rfl, rfl⟩, ?_, fun _ _ _ _ => rfl,
    fun _ _ _ _ _ => ⟨rfl, rfl⟩⟩
  intro rk
  by_cases h : rk = 0 <;> simp [mpiScriptEvents, h, isGenEv, List.countP_append]

/-- C8: applying the replacement rule `(Gx, Gi) → (Gx, Gi2)` and then the
reversion rule `(Gi2,) → (Gi,)` returns every `Gi2`-free gate sequence
unchanged; consequently, after the context-dependence example applies the
reversion rule to all generated experiment strings, the data set contains no
`Gi2` labels (for every interpretation of the library). -/
theorem C8_rule_roundtrip :
    (∀ s : GateString, "Gi2" ∉ s →
      manipulate_gatestring (manipulate_gatestring s contextDepRules) contextDepRevRules = s)
    ∧ ∀ (lib : PygstiLib) (g : GateString),
        g ∈ (contextDepRun lib).ds.gateStrings → "Gi2" ∉ g := by
  constructor
  · exact fwd_then_rev
  · intro lib g hg
    have hds : (contextDepRun lib).ds.gateStrings =
        ((contextDepRun lib).ds0.gateStrings).map
          (fun s => manipulate_gatestring s contextDepRevRules) := rfl
    rw [hds] at hg
    rcases List.mem_map.mp hg with ⟨a, -, ha⟩
    rw [← ha]
    exact revRule_no_Gi2 a

/-- Witness for C8: the round trip at the `Gi2`-free sequence
`Gx, Gi, Gx`, and a concrete key of the processed data set under `lib1`. -/
theorem C8_rule_roundtrip_witness :
    (("Gi2" : GateLabel) ∉ (["Gx", "Gi", "Gx"] : GateString)
      ∧ manipulate_gatestring (manipulate_gatestring ["Gx", "Gi", "Gx"] contextDepRules)
          contextDepRevRules = ["Gx", "Gi", "Gx"])
    ∧ ((["Gx", "Gi"] : GateString) ∈ (contextDepRun lib1).ds.gateStrings
      ∧ ("Gi2" : GateLabel) ∉ (["Gx", "Gi"] : GateString)) :=
  ⟨⟨by decide, C8_rule_roundtrip.1 ["Gx", "Gi", "Gx"] (by decide)⟩,
   ⟨by decide, C8_rule_roundtrip.2 lib1 ["Gx", "Gi"] (by decide)⟩⟩

theorem rank0_writes_once {α : Type} (W : List α) :
    ∀ (n : ℕ), 0 < n →
      ((List.range n).map (fun k => if k = 0 then W else [])).flatten = W := by
  intro n
  induction n with
  | zero => omega
  | succ m ih =>
    intro _
    rw [List.range_succ]
    simp only [List.map_append, List.flatten_append, List.map_cons, List.map_nil,
      List.flatten_cons, List.flatten_nil]
    rcases Nat.eq_zero_or_pos m with h0 | hpos
    · subst h0
      simp
    · rw [ih hpos]
      have hm : m ≠ 0 := Nat.pos_iff_ne_zero.mp hpos
      simp [hm]

/-- C9, evaluated on the code: the claim holds for the parallel-GST script -
its pickle is written only by the rank-0 process and exactly once over the
ranks of a run - but fails for the germ-selection script: that script never
imports `pickle`, so the rank-0 process raises `NameError` at `pickle.dump`
before `open()` runs and no rank writes the output file (it is written zero
times, not once); every other rank still computes and returns the same germ
list and leaves the filesystem unchanged. -/
theorem C9_rank0_write :
    ∀ (lib : PygstiLib) (world : Comm) (fs : FS) (rk n : ℕ),
      (germSelRun lib world rk).germs = (germSelRun lib world 0).germs
      ∧ (germSelRun lib world 0).raised = some "NameError"
      ∧ (germSelRun lib world rk).writes = []
      ∧ (rk ≠ 0 →
          (germSelRun lib world rk).raised = none
          ∧ (germSelRun lib world rk).germsReturned = some (germSelRun lib world 0).germs)
      ∧ (0 < n →
          ((List.range n).map (fun k => (germSelRun lib world k).writes)).flatten = [])
      ∧ (mpiScriptRun lib fs world rk).results = (mpiScriptRun lib fs world 0).results
      ∧ (rk ≠ 0 → (mpiScriptRun lib fs world rk).writes = [])
      ∧ (∀ res : Results, (mpiScriptRun lib fs world 0).results = some res →
          (mpiScriptRun lib fs world 0).writes = [(mpiResultsPath, .pickleResults res)])
      ∧ (0 < n → ∀ res : Results, (mpiScriptRun lib fs world 0).results = some res →
          ((List.range n).map (fun k => (mpiScriptRun lib fs world k).writes)).flatten =
            [(mpiResultsPath, .pickleResults res)]) := by
  intro lib world fs rk n
  have hmw : ∀ res : Results, (mpiScriptRun lib fs world 0).results = some res →
      ∀ k : ℕ, (mpiScriptRun lib fs world k).writes =
        if k = 0 then [(mpiResultsPath, FileVal.pickleResults res)] else [] := by
    intro res hres k
    by_cases hk : k = 0 <;>
      simp only [mpiScriptRun, hk, if_pos, if_neg, ite_true, ite_false, reduceIte]
    · have hres' : ((match fs mpiDatasetPath with
          | some (.datasetFile d) => some d
          | _ => none : Option DataSet)).map
            (fun d => lib.do_long_sequence_gst (mpiScriptGstArgs lib world d)) = some res := hres
      rw [hres']
  refine ⟨rfl, ?_, rfl, ?_, ?_, rfl, ?_, ?_, ?_⟩
  · simp [germSelRun, do_greedy_germsel]
  · intro hrk
    constructor
    · show (if (some world : Option Comm) = none ∨ rk = 0 then some "NameError" else none)
        = none
      rw [if_neg]
      rintro (hc | h0)
      · exact Option.some_ne_none world hc
      · exact hrk h0
    · show (if (some world : Option Comm) = none ∨ rk = 0 then none
          else some (germSelRun lib world rk).germs) = some (germSelRun lib world 0).germs
      rw [if_neg]
      · rfl
      · rintro (hc | h0)
        · exact Option.some_ne_none world hc
        · exact hrk h0
  · intro _
    have hfun : (fun k => (germSelRun lib world k).writes) =
        (fun _ => ([] : List (String × FileVal))) := funext (fun _ => rfl)
    rw [hfun]
    simp
  · intro hrk
    by_cases hds : ∃ res : Results, (mpiScriptRun lib fs world 0).results = some res
    · rcases hds with ⟨res, hres⟩
      rw [hmw res hres rk, if_neg hrk]
    · show (if rk = 0 then _ else []) = []
      rw [if_neg hrk]
  · intro res hres
    rw [hmw res hres 0, if_pos rfl]
  · intro hn res hres
    have hfun : (fun k => (mpiScriptRun lib fs world k).writes) =
        (fun k => if k = 0 then [(mpiResultsPath, FileVal.pickleResults res)] else []) :=
      funext (hmw res hres)
    rw [hfun]
    exact rank0_writes_once _ n hn

/-- Witness for C9: under `lib1`, `fs1` and communicator `comm1`, rank 0 of
the germ-selection script raises `NameError` and a 3-rank run writes
nothing, rank 1 returns the same germ list as rank 0; the parallel-GST
script's rank 0 writes the pickled results and rank 1 writes nothing. -/
theorem C9_rank0_write_witness :
    (germSelRun lib1 comm1 0).raised = some "NameError"
    ∧ ((1 : ℕ) ≠ 0 ∧ (germSelRun lib1 comm1 1).raised = none
      ∧ (germSelRun lib1 comm1 1).germsReturned = some (germSelRun lib1 comm1 0).germs)
    ∧ ((0 : ℕ) < 3
      ∧ ((List.range 3).map (fun k => (germSelRun lib1 comm1 k).writes)).flatten = [])
    ∧ ((mpiScriptRun lib1 fs1 comm1 0).results = some mpiRes1
      ∧ (mpiScriptRun lib1 fs1 comm1 0).writes = [(mpiResultsPath, .pickleResults mpiRes1)])
    ∧ ((1 : ℕ) ≠ 0 ∧ (mpiScriptRun lib1 fs1 comm1 1).writes = []) :=
  ⟨(C9_rank0_write lib1 comm1 fs1 1 3).2.1,
   ⟨by decide, (C9_rank0_write lib1 comm1 fs1 1 3).2.2.2.1 (by decide)⟩,
   ⟨by decide, (C9_rank0_write lib1 comm1 fs1 1 3).2.2.2.2.1 (by decide)⟩,
   ⟨rfl, (C9_rank0_write lib1 comm1 fs1 1 3).2.2.2.2.2.2.2.1 mpiRes1 rfl⟩,
   ⟨by decide, (C9_rank0_write lib1 comm1 fs1 1 3).2.2.2.2.2.2.1 (by decide)⟩⟩

/-- C10: the first cell of the 2Q-GST error-bars notebook modifies only the
`memLimit` entry of `results.estimates['default'].parameters`, setting it to
`2.5 * 1024^3` bytes; every other component of the unpickled results object
(other parameters, gauge-optimized gate sets, confidence-region factories,
other estimates, the data set) is left unchanged. -/
theorem C10_memLimit_frame :
    ∀ (r : Results) (e : Estimate), r.estimates "default" = some e →
      (memLimitCell r).estimates "default" = some (setMemLimit e)
      ∧ (setMemLimit e).parameters "memLimit" = some (.num memLimitValue)
      ∧ memLimitValue = 2684354560
      ∧ (∀ p, p ≠ "memLimit" → (setMemLimit e).parameters p = e.parameters p)
      ∧ (setMemLimit e).gatesets = e.gatesets
      ∧ (setMemLimit e).crfactories = e.crfactories
      ∧ (∀ k, k ≠ "default" → (memLimitCell r).estimates k = r.estimates k)
      ∧ (memLimitCell r).dataset = r.dataset := by
  intro r e h
  refine ⟨?_, ?_, ?_, ?_, rfl, rfl, ?_, rfl⟩
  · simp [memLimitCell, h]
  · simp [setMemLimit]
  · norm_num [memLimitValue]
  · intro p hp
    simp [setMemLimit, hp]
  · intro k hk
    simp [memLimitCell, hk]

/-- Witness for C10: the frame property applied to the concrete results
object `wResults`. -/
theorem C10_memLimit_frame_witness :
    wResults.estimates "default" = some wEstimate
    ∧ ((memLimitCell wResults).estimates "default" = some (setMemLimit wEstimate)
      ∧ (setMemLimit wEstimate).parameters "memLimit" = some (.num memLimitValue)
      ∧ memLimitValue = 2684354560
      ∧ (∀ p, p ≠ "memLimit" → (setMemLimit wEstimate).parameters p = wEstimate.parameters p)
      ∧ (setMemLimit wEstimate).gatesets = wEstimate.gatesets
      ∧ (setMemLimit wEstimate).crfactories = wEstimate.crfactories
      ∧ (∀ k, k ≠ "default" → (memLimitCell wResults).estimates k = wResults.estimates k)
      ∧ (memLimitCell wResults).dataset = wResults.dataset) :=
  ⟨rfl, C10_memLimit_frame wResults wEstimate rfl⟩
